import Mathlib

/-!
Verification of the aggregation/normalization core of `github-dev-intel`
(`src/index.ts`), a small HTTP façade over the GitHub REST API.

The embedding models JavaScript values shallowly: a `JsVal` type keeps the
distinction between `undefined` and `null` (which matters for JSON
serialization, where `undefined`-valued object properties are dropped while
`null` is kept), and a `JsNum` type keeps `NaN`/infinities produced by
arithmetic (which `JSON.stringify` renders as `null`).  Handlers are modelled
as pure functions from the already-settled results of their upstream fetches
(each fetch result an `Except String _`, mirroring a resolved or rejected
promise); `Promise.all` over a `.map` preserves input order, which the
embedding reflects by `List.map`.
-/

/-- A JavaScript value as it appears in the dynamically-typed records the
handlers manipulate.  `undef` is JavaScript `undefined`, distinct from
`null`.  Numbers are integers here: every numeric field the code touches
(star/fork/issue counts, byte sizes) is an integer well inside the range
where IEEE-754 doubles are exact. -/
inductive JsVal where
  | undef : JsVal
  | null : JsVal
  | str : String → JsVal
  | num : Int → JsVal
  | bool : Bool → JsVal
  | arr : List String → JsVal
  deriving DecidableEq, Repr

/-- JavaScript truthiness: `undefined`, `null`, `""`, `0` and `false` are
falsy; every object (hence every array, even empty) is truthy. -/
def JsVal.truthy : JsVal → Bool
  | .undef => false
  | .null => false
  | .str s => !s.isEmpty
  | .num n => n != 0
  | .bool b => b
  | .arr _ => true

/-- The JavaScript `||` operator: the left operand if truthy, else the right. -/
def jsOr (a b : JsVal) : JsVal := if a.truthy then a else b

/-- The JavaScript `>` operator restricted to the operand shapes the code
produces: two numbers compare numerically, two strings lexicographically,
and any comparison involving `undefined`/`null`/mixed shapes is `false`
(`undefined` coerces to `NaN`, and every `NaN` comparison is false). -/
def jsGT : JsVal → JsVal → Bool
  | .num a, .num b => a > b
  | .str a, .str b => b < a
  | _, _ => false

/-- A numeric value as produced by JavaScript arithmetic: a finite rational,
`NaN`, or a signed infinity.  (In the exact-integer regime of this program,
rational arithmetic coincides with double arithmetic.) -/
inductive JsNum where
  | nan : JsNum
  | inf : JsNum
  | ninf : JsNum
  | val : ℚ → JsNum
  deriving DecidableEq, Repr

/-- `acc + v` where `acc` is a number accumulator and `v` a record field:
adding a number keeps a number; adding `undefined`, `null` or any non-number
yields `NaN` (string operands would concatenate instead, but the counts the
code sums are numeric upstream fields, never strings). -/
def jsAdd : JsNum → JsVal → JsNum
  | .val a, .num b => .val (a + (b : ℚ))
  | .inf, .num _ => .inf
  | .ninf, .num _ => .ninf
  | _, _ => .nan

/-- JavaScript division of an accumulated number by a (natural) length:
`0 / 0 = NaN`, `x / 0 = ±Infinity` for `x ≠ 0`. -/
def jsDiv (a : JsNum) (n : ℕ) : JsNum :=
  match a with
  | .nan => .nan
  | .inf => .inf
  | .ninf => .ninf
  | .val q =>
    if n = 0 then
      if q = 0 then .nan else if 0 < q then .inf else .ninf
    else .val (q / (n : ℚ))

/-- `Math.round`: nearest integer, halves toward `+∞`, i.e. `⌊q + 1/2⌋`;
`NaN` and infinities pass through. -/
def jsMathRound : JsNum → JsNum
  | .nan => .nan
  | .inf => .inf
  | .ninf => .ninf
  | .val q => .val ((⌊q + 1/2⌋ : ℤ) : ℚ)

/-- How `JSON.stringify` renders a number: `NaN` and infinities become
`null`; a finite value is emitted as a number (the values this is applied to
are integral, being `Math.round` outputs). -/
def jsonOfJsNum : JsNum → JsVal
  | .val q => .num ⌊q⌋
  | _ => .null

/-- `JSON.stringify` on an object drops every property whose value is
`undefined`; all other properties are kept. -/
def jsonObj (fields : List (String × JsVal)) : List (String × JsVal) :=
  fields.filter (fun f => f.2 != JsVal.undef)

/-- The nested `owner` object of a raw GitHub repository record; only its
`login` field is read. -/
structure RawOwner where
  login : JsVal := .undef
  deriving DecidableEq, Repr

/-- The nested `license` object of a raw repository record; only its
`spdx_id` field is read. -/
structure RawLicense where
  spdx_id : JsVal := .undef
  deriving DecidableEq, Repr

/-- A raw GitHub repository record, as the untrusted upstream JSON object.
A field holding `.undef` models an absent key (JavaScript property access on
a missing key yields `undefined`).  The nested `owner` and `license` objects
are `Option`s: `none` models the object being absent or `null`, which is
exactly what the `?.` accesses in the source test for. -/
structure RawRepo where
  full_name : JsVal := .undef
  name : JsVal := .undef
  owner : Option RawOwner := none
  description : JsVal := .undef
  stargazers_count : JsVal := .undef
  forks_count : JsVal := .undef
  watchers_count : JsVal := .undef
  open_issues_count : JsVal := .undef
  language : JsVal := .undef
  topics : JsVal := .undef
  license : Option RawLicense := none
  created_at : JsVal := .undef
  updated_at : JsVal := .undef
  pushed_at : JsVal := .undef
  default_branch : JsVal := .undef
  homepage : JsVal := .undef
  html_url : JsVal := .undef
  archived : JsVal := .undef
  fork : JsVal := .undef
  size : JsVal := .undef
  has_wiki : JsVal := .undef
  has_pages : JsVal := .undef
  has_downloads : JsVal := .undef
  subscribers_count : JsVal := .undef
  network_count : JsVal := .undef
  deriving DecidableEq, Repr

/-- The canonical repository record produced by `formatRepo`. -/
structure FormattedRepo where
  fullName : JsVal
  name : JsVal
  owner : JsVal
  description : JsVal
  stars : JsVal
  forks : JsVal
  watchers : JsVal
  openIssues : JsVal
  language : JsVal
  topics : JsVal
  license : JsVal
  createdAt : JsVal
  updatedAt : JsVal
  pushedAt : JsVal
  defaultBranch : JsVal
  homepage : JsVal
  url : JsVal
  isArchived : JsVal
  isFork : JsVal
  deriving DecidableEq, Repr

/-- `formatRepo` from `src/index.ts` lines 45–67, field for field:
`owner: repo.owner?.login`, `topics: repo.topics || []`,
`license: repo.license?.spdx_id || null`, `homepage: repo.homepage || null`,
all other fields passed through unchanged. -/
def formatRepo (repo : RawRepo) : FormattedRepo where
  fullName := repo.full_name
  name := repo.name
  owner := match repo.owner with | none => .undef | some o => o.login
  description := repo.description
  stars := repo.stargazers_count
  forks := repo.forks_count
  watchers := repo.watchers_count
  openIssues := repo.open_issues_count
  language := repo.language
  topics := jsOr repo.topics (.arr [])
  license := jsOr (match repo.license with | none => .undef | some l => l.spdx_id) .null
  createdAt := repo.created_at
  updatedAt := repo.updated_at
  pushedAt := repo.pushed_at
  defaultBranch := repo.default_branch
  homepage := jsOr repo.homepage .null
  url := repo.html_url
  isArchived := repo.archived
  isFork := repo.fork

/-- Proleptic-Gregorian civil date from a count of days since 1970-01-01
(the classic era-based algorithm, ported with truncating `Int` division as in
its C source).  Models the date part computed by `Date.toISOString`. -/
def civilFromDays (z0 : Int) : Int × Nat × Nat :=
  let z := z0 + 719468
  let era : Int := (if 0 ≤ z then z else z - 146096) / 146097
  let doe : Nat := (z - era * 146097).toNat
  let yoe : Nat := (doe - doe / 1460 + doe / 36524 - doe / 146096) / 365
  let y : Int := (yoe : Int) + era * 400
  let doy : Nat := doe - (365 * yoe + yoe / 4 - yoe / 100)
  let mp : Nat := (5 * doy + 2) / 153
  let d : Nat := doy - (153 * mp + 2) / 5 + 1
  let m : Nat := if mp < 10 then mp + 3 else mp - 9
  (y + (if m ≤ 2 then 1 else 0), m, d)

/-- Days since 1970-01-01 of a civil date (inverse era-based algorithm);
used to model `Date` parsing of the upstream ISO timestamps. -/
def daysFromCivil (y0 : Int) (m d : Nat) : Int :=
  let y : Int := y0 - (if m ≤ 2 then 1 else 0)
  let era : Int := (if 0 ≤ y then y else y - 399) / 400
  let yoe : Nat := (y - era * 400).toNat
  let mp : Nat := if 2 < m then m - 3 else m + 9
  let doy : Nat := (153 * mp + 2) / 5 + d - 1
  let doe : Nat := yoe * 365 + yoe / 4 - yoe / 100 + doy
  era * 146097 + (doe : Int) - 719468

/-- Zero-padded two-digit decimal. -/
def pad2 (n : Nat) : String :=
  if n < 10 then "0" ++ toString n else toString n

/-- Zero-padded four-digit year (all reachable years are in 0–9999, where
`toISOString` prints exactly four digits). -/
def pad4 (y : Int) : String :=
  let n := y.toNat
  if n < 10 then "000" ++ toString n
  else if n < 100 then "00" ++ toString n
  else if n < 1000 then "0" ++ toString n
  else toString n

/-- The date component of `new Date(ms).toISOString()`: the UTC calendar
date of the day containing `ms`, formatted `YYYY-MM-DD`.  This is what
`toISOString().split('T')[0]` yields in the trending handler. -/
def isoDateOf (ms : Int) : String :=
  let c := civilFromDays (Int.fdiv ms 86400000)
  pad4 c.1 ++ "-" ++ pad2 c.2.1 ++ "-" ++ pad2 c.2.2

/-- A fixed-width all-digit numeral, as in the fields of an ISO timestamp. -/
def parseNatFixed (s : String) (len : Nat) : Option Nat :=
  if s.length = len && s.toList.all Char.isDigit then
    some (s.toList.foldl (fun n c => n * 10 + (c.toNat - 48)) 0)
  else none

/-- `Date.parse` restricted to the `YYYY-MM-DDTHH:MM:SSZ` form the GitHub
API emits for timestamps; yields epoch milliseconds, `none` on anything
malformed (an invalid date, whose time value is `NaN`). -/
def parseISODateTime (s : String) : Option Int :=
  match s.splitOn "T" with
  | [ds, ts] =>
    match ds.splitOn "-" with
    | [ys, ms, dds] =>
      if ts.endsWith "Z" then
        match (ts.dropRight 1).splitOn ":" with
        | [hs, mins, secs] => do
          let y ← parseNatFixed ys 4
          let mo ← parseNatFixed ms 2
          let d ← parseNatFixed dds 2
          let h ← parseNatFixed hs 2
          let mi ← parseNatFixed mins 2
          let se ← parseNatFixed secs 2
          if 1 ≤ mo && mo ≤ 12 && 1 ≤ d && d ≤ 31 && h ≤ 23 && mi ≤ 59 && se ≤ 59 then
            some (daysFromCivil (y : Int) mo d * 86400000 +
              ((h * 3600 + mi * 60 + se : Nat) : Int) * 1000)
          else none
        | _ => none
      else none
    | _ => none
  | _ => none

/-- The time value (`valueOf`, epoch milliseconds) of `new Date(v)`:
`null` coerces to `0`, a number is taken as milliseconds, a string is
parsed; `undefined` (and other shapes) give an invalid date, whose time
value is `NaN`, modelled as `none`. -/
def dateMs : JsVal → Option Int
  | .null => some 0
  | .num n => some n
  | .str s => parseISODateTime s
  | _ => none

/-- `new Date(a) > new Date(b)`: numeric comparison of the two time values;
false whenever either side is an invalid date (`NaN`). -/
def gtDate (a b : JsVal) : Bool :=
  match dateMs a, dateMs b with
  | some x, some y => x > y
  | _, _ => false

instance {ε α : Type} [DecidableEq ε] [DecidableEq α] : DecidableEq (Except ε α)
  | .ok a, .ok b =>
    if h : a = b then .isTrue (by rw [h]) else .isFalse (by simp [h])
  | .ok _, .error _ => .isFalse (by simp)
  | .error _, .ok _ => .isFalse (by simp)
  | .error a, .error b =>
    if h : a = b then .isTrue (by rw [h]) else .isFalse (by simp [h])

/-- A languages map, as returned by `/repos/{repo}/languages`: language
name to byte count. -/
abbrev LangMap := List (String × JsVal)

/-- The settled results of the two upstream fetches the compare handler
issues for one requested name.  `data` is the `/repos/{repo}` fetch (its
rejection is what the surrounding `try` catches); `languages` is the
`/repos/{repo}/languages` fetch, which carries its own `.catch(() => ({}))`
and therefore never rejects the inner `Promise.all`. -/
structure RepoFetch where
  name : String
  data : Except String RawRepo
  languages : Except String LangMap
  deriving DecidableEq, Repr

/-- One element of the compare handler's `repos` array: on success the
spread of `formatRepo(data)` plus the languages map (tagged
`status: 'success'`), on a caught fetch failure the
`{fullName: repo, status: 'error', error: e.message}` record. -/
inductive CompareEntry where
  | success : FormattedRepo → LangMap → CompareEntry
  | error : String → String → CompareEntry
  deriving DecidableEq, Repr

/-- The `async (repo) => { try ... catch ... }` body mapped over the
requested names: a rejected `/repos/{repo}` fetch becomes an error entry
carrying the requested name and the error message; a resolved one becomes a
success entry, with the languages fetch's failure replaced by `{}`. -/
def compareEntry (f : RepoFetch) : CompareEntry :=
  match f.data with
  | .error e => .error f.name e
  | .ok d => .success (formatRepo d) (f.languages.toOption.getD [])

/-- A success entry as seen by the metrics fold (the
`repoDataArray.filter(r => r.status === 'success')` elements). -/
structure SuccessEntry where
  r : FormattedRepo
  languages : LangMap
  deriving DecidableEq, Repr

/-- `repoDataArray.filter(r => r.status === 'success')`. -/
def successfulOf : List CompareEntry → List SuccessEntry
  | [] => []
  | .success r l :: t => ⟨r, l⟩ :: successfulOf t
  | .error _ _ :: t => successfulOf t

/-- `successful.reduce((a, b) => gt a b ? a : b, successful[0])`: JavaScript
`reduce` with an explicit initial value folds over the whole array, so the
first element is also compared against itself; on an empty array the
initial value `successful[0]` is `undefined` and the callback never runs. -/
def reduceMost (gt : SuccessEntry → SuccessEntry → Bool) :
    List SuccessEntry → Option SuccessEntry
  | [] => none
  | x :: t => some ((x :: t).foldl (fun a b => if gt a b then a else b) x)

/-- `(...)?.fullName` applied to the fold result: `undefined` when the fold
produced `undefined` (empty successful set). -/
def optFullName : Option SuccessEntry → JsVal
  | none => .undef
  | some e => e.r.fullName

/-- `successful.reduce((sum, r) => sum + r.stars, 0)`. -/
def starsSum (succ : List SuccessEntry) : JsNum :=
  succ.foldl (fun s e => jsAdd s e.r.stars) (.val 0)

/-- The derived `comparison` object of the compare handler. -/
structure Comparison where
  mostStars : JsVal
  mostForks : JsVal
  mostRecent : JsVal
  avgStars : JsNum
  deriving DecidableEq, Repr

/-- `src/index.ts` lines 327–334: the three `reduce` folds with strict `>`
comparisons seeded by `successful[0]`, and
`avgStars = Math.round(sum / successful.length)`. -/
def comparisonOf (succ : List SuccessEntry) : Comparison where
  mostStars := optFullName (reduceMost (fun a b => jsGT a.r.stars b.r.stars) succ)
  mostForks := optFullName (reduceMost (fun a b => jsGT a.r.forks b.r.forks) succ)
  mostRecent := optFullName (reduceMost (fun a b => gtDate a.r.pushedAt b.r.pushedAt) succ)
  avgStars := jsMathRound (jsDiv (starsSum succ) succ.length)

/-- The compare handler's `output` object (without the `fetchedAt`
timestamp, which is wall-clock).  `Promise.all` over `repos.map(...)`
resolves to the per-item results in input order, reflected by `List.map`;
the handler itself never rejects since every per-item failure is caught. -/
structure CompareOut where
  requestedRepos : List String
  count : Nat
  repos : List CompareEntry
  comparison : Comparison
  deriving DecidableEq, Repr

/-- `src/index.ts` lines 300–345: the compare handler as a function of the
settled per-name fetch results. -/
def compareHandler (fetches : List RepoFetch) : CompareOut where
  requestedRepos := fetches.map (·.name)
  count := (fetches.map compareEntry).length
  repos := fetches.map compareEntry
  comparison := comparisonOf (successfulOf (fetches.map compareEntry))

/-- The `comparison` object as it appears after `JSON.stringify`:
`undefined`-valued keys dropped, the `avgStars` number rendered with
`NaN`/infinities as `null`. -/
def comparisonJson (c : Comparison) : List (String × JsVal) :=
  jsonObj [("mostStars", c.mostStars), ("mostForks", c.mostForks),
    ("mostRecent", c.mostRecent), ("avgStars", jsonOfJsNum c.avgStars)]

/-- A raw contributor record from `/repos/{repo}/contributors`. -/
structure ContribRaw where
  login : JsVal := .undef
  contributions : JsVal := .undef
  html_url : JsVal := .undef
  deriving DecidableEq, Repr

/-- A `topContributors` element: `{login, contributions, profileUrl}`. -/
structure ContribOut where
  login : JsVal
  contributions : JsVal
  profileUrl : JsVal
  deriving DecidableEq, Repr

/-- The repo-stats handler's `output` object (without `fetchedAt`). -/
structure RepoStatsOut where
  repo : FormattedRepo
  size : JsVal
  hasWiki : JsVal
  hasPages : JsVal
  hasDownloads : JsVal
  subscribersCount : JsVal
  networkCount : JsVal
  languages : LangMap
  topContributors : List ContribOut
  deriving DecidableEq, Repr

/-- `src/index.ts` lines 188–216: the repo-stats handler as a function of
its three settled upstream fetches.  The contributors and languages fetches
carry `.catch(() => [])` / `.catch(() => ({}))`, so only a rejection of the
required `/repos/{repo}` fetch can reject the `Promise.all` and hence the
handler. -/
def repoStatsHandler (repoRes : Except String RawRepo)
    (contribRes : Except String (List ContribRaw))
    (langRes : Except String LangMap) : Except String RepoStatsOut :=
  match repoRes with
  | .error e => .error e
  | .ok rd => .ok {
      repo := formatRepo rd
      size := rd.size
      hasWiki := rd.has_wiki
      hasPages := rd.has_pages
      hasDownloads := rd.has_downloads
      subscribersCount := rd.subscribers_count
      networkCount := rd.network_count
      languages := langRes.toOption.getD []
      topContributors := ((contribRes.toOption.getD []).take 5).map
        (fun c => ⟨c.login, c.contributions, c.html_url⟩) }

/-- A `sampleTrending` element of the overview output. -/
structure SampleRepo where
  name : JsVal
  stars : JsVal
  language : JsVal
  description : JsVal
  deriving DecidableEq, Repr

/-- `r.description?.slice(0, 100)`: `undefined` when the description is
absent or `null`, the first 100 characters otherwise. -/
def descSlice (v : JsVal) : JsVal :=
  let u : JsVal := .undef
  match v with
  | .str s => .str (s.take 100)
  | _ => u

/-- `data.items.slice(0, 3).map(...)` in the overview handler. -/
def overviewSample (items : List RawRepo) : List SampleRepo :=
  (items.take 3).map (fun r =>
    ⟨r.full_name, r.stargazers_count, r.language, descSlice r.description⟩)

/-- The `price: { amount: N }` registered with each entrypoint key
(`addEntrypoint` calls in `src/index.ts`). -/
def priceOf (key : String) : Option Nat :=
  if key = "overview" then some 0
  else if key = "trending" then some 1000
  else if key = "repo-stats" then some 2000
  else if key = "releases" then some 2000
  else if key = "search" then some 2000
  else if key = "compare" then some 5000
  else none

/-- The characters `encodeURIComponent` leaves unescaped: ASCII
alphanumerics and `- _ . ! ~ * ' ( )` (39 is the apostrophe). -/
def isUnreserved (c : Char) : Bool :=
  c.isAlphanum || "-_.!~*()".toList.contains c || c.toNat == 39

/-- UTF-8 encoding of one code point, as a list of byte values. -/
def utf8Bytes (c : Char) : List Nat :=
  let n := c.toNat
  if n < 0x80 then [n]
  else if n < 0x800 then [0xC0 + n / 0x40, 0x80 + n % 0x40]
  else if n < 0x10000 then
    [0xE0 + n / 0x1000, 0x80 + n / 0x40 % 0x40, 0x80 + n % 0x40]
  else
    [0xF0 + n / 0x40000, 0x80 + n / 0x1000 % 0x40,
     0x80 + n / 0x40 % 0x40, 0x80 + n % 0x40]

/-- Uppercase hexadecimal digit. -/
def hexUpper (n : Nat) : Char :=
  if n < 10 then Char.ofNat (48 + n) else Char.ofNat (55 + n)

/-- One percent-escaped byte, `%XY` with uppercase hex. -/
def pctByte (b : Nat) : String :=
  "%" ++ String.mk [hexUpper (b / 16), hexUpper (b % 16)]

/-- JavaScript `encodeURIComponent`: unreserved characters pass through,
every other character is replaced by the percent-escapes of its UTF-8
bytes. -/
def encodeURIComponent (s : String) : String :=
  String.join (s.toList.map (fun c =>
    if isUnreserved c then String.mk [c]
    else String.join ((utf8Bytes c).map pctByte)))

/-- `src/index.ts` lines 273–275: the composed search query before the
final whole-string encoding.  The language token is percent-encoded as it
is appended; the star filter is appended only when `minStars` is truthy
(`if (minStars)`), so a supplied `0` is skipped. -/
def searchComposedQ (query : String) (language : Option String)
    (minStars : Option Int) : String :=
  let q := query
  let q := match language with
    | some l => q ++ "+language:" ++ encodeURIComponent l
    | none => q
  match minStars with
  | some n => if n = 0 then q else q ++ "+stars:>=" ++ toString n
  | none => q

/-- The `q=` parameter the search handler sends upstream:
`encodeURIComponent(q)` applied to the composed query (line 277). -/
def searchUpstreamQ (query : String) (language : Option String)
    (minStars : Option Int) : String :=
  encodeURIComponent (searchComposedQ query language minStars)

/-- The trending timeframe enum (`z.enum(['day', 'week', 'month'])`). -/
inductive Timeframe where
  | day
  | week
  | month
  deriving DecidableEq, Repr

/-- Lines 152–154: `let daysAgo = 7; if day → 1; if month → 30`. -/
def timeframeDays : Timeframe → Nat
  | .day => 1
  | .week => 7
  | .month => 30

/-- The zod `.default('week')` applied when the request omits the
timeframe. -/
def timeframeOrDefault : Option Timeframe → Timeframe
  | none => .week
  | some t => t

/-- Lines 156–157: the cutoff date string,
`new Date(now.getTime() - daysAgo*24*60*60*1000).toISOString().split('T')[0]`. -/
def trendingSince (nowMs : Int) (tf : Timeframe) : String :=
  isoDateOf (nowMs - (timeframeDays tf : Int) * 86400000)

/-- Lines 160–163: the trending query string,
`created:>${sinceStr}+stars:>10` plus a percent-encoded language token when
a language is supplied; the composed string is not encoded again. -/
def trendingQuery (nowMs : Int) (tf : Timeframe) (language : Option String) :
    String :=
  let q := "created:>" ++ trendingSince nowMs tf ++ "+stars:>10"
  match language with
  | some l => q ++ "+language:" ++ encodeURIComponent l
  | none => q

/-- The `r.status === 'success'` test on a compare entry. -/
def isSuccessEntry : CompareEntry → Bool
  | .success _ _ => true
  | .error _ _ => false

/-- Fixture: a raw repository named `a/a` with 5 stars and 7 forks. -/
def tieRawA : RawRepo :=
  { full_name := .str "a/a", stargazers_count := .num 5, forks_count := .num 7,
    pushed_at := .str "2026-01-01T00:00:00Z" }

/-- Fixture: a raw repository named `b/b` with the same counts as `a/a`. -/
def tieRawB : RawRepo :=
  { full_name := .str "b/b", stargazers_count := .num 5, forks_count := .num 7,
    pushed_at := .str "2026-01-01T00:00:00Z" }

/-- Fixture: both requested names resolved successfully, with identical
star/fork counts and push dates. -/
def tieFetches : List RepoFetch :=
  [⟨"a/a", .ok tieRawA, .ok []⟩, ⟨"b/b", .ok tieRawB, .ok []⟩]

/-- Fixture: both per-name `/repos` fetches rejected. -/
def failFetches : List RepoFetch :=
  [⟨"a/a", .error "GitHub API error: 404 - Not Found", .ok []⟩,
   ⟨"b/b", .error "GitHub API error: 500 - oops", .error "boom"⟩]

/-- Fixture: first name fails, second succeeds. -/
def mixFetches : List RepoFetch :=
  [⟨"a/a", .error "GitHub API error: 404 - Not Found", .ok []⟩,
   ⟨"b/b", .ok tieRawB, .ok [("TypeScript", .num 1234)]⟩]

/-- Fixture: a raw repository with a given star count. -/
def starsRaw (n : Int) : RawRepo :=
  { full_name := .str "s/s", stargazers_count := .num n }

/-- Fixture: successful entries with star counts 10, 30, 50. -/
def avgEntries : List SuccessEntry :=
  [⟨formatRepo (starsRaw 10), []⟩, ⟨formatRepo (starsRaw 30), []⟩,
   ⟨formatRepo (starsRaw 50), []⟩]

/-- Fixture: four upstream search items. -/
def sampleItems : List RawRepo := [{}, {}, {}, {}]




/-- The strict `>` comparison is irreflexive on every value shape. -/
theorem jsGT_irrefl (v : JsVal) : jsGT v v = false := by
  cases v <;> simp [jsGT, String.lt_irrefl]

/-- Date comparison of a value against itself is false (either both sides
are the same finite time value, or both are `NaN`). -/
theorem gtDate_irrefl (v : JsVal) : gtDate v v = false := by
  unfold gtDate
  cases h : dateMs v <;> simp

/-- Folding `sum + r.stars` over entries whose star fields are the numbers
`ns` adds up to `ns.sum`, for any numeric accumulator. -/
theorem foldl_jsAdd_nums (succ : List SuccessEntry) (ns : List Int) (q : ℚ)
    (h : succ.map (fun e => e.r.stars) = ns.map JsVal.num) :
    succ.foldl (fun s e => jsAdd s e.r.stars) (.val q) = .val (q + (ns.sum : ℚ)) := by
  induction succ generalizing ns q with
  | nil =>
    cases ns with
    | nil => simp
    | cons n nt => simp at h
  | cons e t ih =>
    cases ns with
    | nil => simp at h
    | cons n nt =>
      simp only [List.map_cons, List.cons.injEq] at h
      obtain ⟨h1, h2⟩ := h
      rw [List.foldl_cons]
      have hstep : jsAdd (JsNum.val q) e.r.stars = JsNum.val (q + (n : ℚ)) := by
        rw [h1]
        rfl
      rw [hstep, ih nt (q + (n : ℚ)) h2]
      congr 1
      rw [List.sum_cons]
      push_cast
      ring

/-- Removing the fetches whose required call failed does not change the
successful entries, hence not the derived metrics. -/
theorem successfulOf_map_filter (fetches : List RepoFetch) :
    successfulOf ((fetches.filter (fun f => f.data.isOk)).map compareEntry) =
      successfulOf (fetches.map compareEntry) := by
  induction fetches with
  | nil => rfl
  | cons f t ih =>
    cases hd : f.data with
    | ok d =>
      have hp : f.data.isOk = true := by rw [hd]; rfl
      have hcf : compareEntry f = .success (formatRepo d) (f.languages.toOption.getD []) := by
        simp [compareEntry, hd]
      simp [List.filter_cons, hp, hcf, successfulOf, ih]
    | error e =>
      have hp : f.data.isOk = false := by rw [hd]; rfl
      have hcf : compareEntry f = .error f.name e := by
        simp [compareEntry, hd]
      simp [List.filter_cons, hp, hcf, successfulOf, ih]

/-- If every requested fetch failed, no entry is successful. -/
theorem successfulOf_map_nil (fetches : List RepoFetch)
    (h : ∀ f ∈ fetches, f.data.isOk = false) :
    successfulOf (fetches.map compareEntry) = [] := by
  induction fetches with
  | nil => rfl
  | cons f t ih =>
    have hf := h f (List.mem_cons_self f t)
    cases hd : f.data with
    | ok d =>
      rw [hd] at hf
      simp [Except.isOk, Except.toBool] at hf
    | error e =>
      have hcf : compareEntry f = .error f.name e := by
        simp [compareEntry, hd]
      simp only [List.map_cons, hcf, successfulOf]
      exact ih (fun g hg => h g (List.mem_cons_of_mem f hg))

/-- Success entries and error entries together exhaust a compare result
list. -/
theorem countP_success_add_error (l : List CompareEntry) :
    l.countP isSuccessEntry + l.countP (fun e => !isSuccessEntry e) = l.length := by
  induction l with
  | nil => rfl
  | cons e t ih =>
    rw [List.countP_cons, List.countP_cons]
    cases e with
    | success r lg =>
      have h1 : isSuccessEntry (.success r lg) = true := rfl
      rw [h1]
      simp
      omega
    | error s1 s2 =>
      have h1 : isSuccessEntry (.error s1 s2) = false := rfl
      rw [h1]
      simp
      omega

/-- C2 counterexample: on a raw record with no `owner` key, the canonical
`owner` field is JavaScript `undefined`, not `null` as the claim states
(after `JSON.stringify` the key is absent rather than explicitly null). -/
theorem formatRepo_missing_owner_not_null :
    (formatRepo ({} : RawRepo)).owner = JsVal.undef ∧
      (formatRepo ({} : RawRepo)).owner ≠ JsVal.null := by
  decide

/-- C2 (amended): `formatRepo` is total by construction, and for a raw
record missing the optional fields: the license identifier defaults to
`null`, topics to `[]` and homepage to `null` as claimed — but a missing
owner yields `undefined` (an absent key after serialization), not `null`. -/
theorem formatRepo_defaulting (repo : RawRepo)
    (ho : repo.owner = none) (hl : repo.license = none)
    (ht : repo.topics = JsVal.undef) (hh : repo.homepage = JsVal.undef) :
    (formatRepo repo).owner = JsVal.undef ∧
    (formatRepo repo).license = JsVal.null ∧
    (formatRepo repo).topics = JsVal.arr [] ∧
    (formatRepo repo).homepage = JsVal.null := by
  refine ⟨?_, ?_, ?_, ?_⟩ <;>
    simp [formatRepo, ho, hl, ht, hh, jsOr, JsVal.truthy]

/-- Witness for the amended C2 at the all-defaults raw record. -/
theorem formatRepo_defaulting_witness :
    (formatRepo ({} : RawRepo)).owner = JsVal.undef ∧
    (formatRepo ({} : RawRepo)).license = JsVal.null ∧
    (formatRepo ({} : RawRepo)).topics = JsVal.arr [] ∧
    (formatRepo ({} : RawRepo)).homepage = JsVal.null :=
  formatRepo_defaulting {} rfl rfl rfl rfl

/-- C4 counterexample: comparing two repositories with equal star counts
(`a/a` listed first, `b/b` second, both 5 stars) yields `mostStars = "b/b"`,
the second-listed name — refuting the claimed first-occurrence tie-break. -/
theorem compare_tie_not_first_listed :
    (compareHandler tieFetches).comparison.mostStars = JsVal.str "b/b" ∧
      JsVal.str "b/b" ≠ JsVal.str "a/a" := by
  decide

/-- C4 (amended): the `reduce` folds resolve ties by last occurrence wins:
`(a, b) => (a.x > b.x ? a : b)` returns the incoming element `b` when the
strict `>` is false, so on equal values the accumulator is replaced; for
two successful entries with equal stars, forks and push timestamps, all
three derived names are the second-listed entry's. -/
theorem compare_tie_last_occurrence (a b : SuccessEntry)
    (hs : a.r.stars = b.r.stars) (hf : a.r.forks = b.r.forks)
    (hp : a.r.pushedAt = b.r.pushedAt) :
    (comparisonOf [a, b]).mostStars = b.r.fullName ∧
    (comparisonOf [a, b]).mostForks = b.r.fullName ∧
    (comparisonOf [a, b]).mostRecent = b.r.fullName := by
  refine ⟨?_, ?_, ?_⟩ <;>
    simp [comparisonOf, reduceMost, optFullName, hs, hf, hp,
      jsGT_irrefl, gtDate_irrefl]

/-- Witness for the amended C4 at the equal-counts fixtures. -/
theorem compare_tie_last_occurrence_witness :
    (comparisonOf [⟨formatRepo tieRawA, []⟩, ⟨formatRepo tieRawB, []⟩]).mostStars =
      (formatRepo tieRawB).fullName :=
  (compare_tie_last_occurrence ⟨formatRepo tieRawA, []⟩ ⟨formatRepo tieRawB, []⟩
    (by decide) (by decide) (by decide)).1

/-- C5 (confirmed): over a non-empty successful set whose star counts are
the integers `ns`, `avgStars` is the arithmetic mean of `ns` rounded to the
nearest integer (`Math.round`, halves up — Mathlib's `round`). -/
theorem compare_avgStars_rounded_mean (succ : List SuccessEntry) (ns : List Int)
    (h : succ.map (fun e => e.r.stars) = ns.map JsVal.num) (hne : succ ≠ []) :
    (comparisonOf succ).avgStars =
      JsNum.val ((round ((ns.sum : ℚ) / (ns.length : ℚ)) : ℤ) : ℚ) := by
  have hlen : succ.length = ns.length := by
    have h2 := congrArg List.length h
    simpa using h2
  have hsum : starsSum succ = JsNum.val ((ns.sum : ℚ)) := by
    have h3 := foldl_jsAdd_nums succ ns 0 h
    simpa [starsSum] using h3
  have hnz : ns.length ≠ 0 := by
    intro hc
    exact hne (List.length_eq_zero.mp (hlen.trans hc))
  simp [comparisonOf, hsum, hlen, jsDiv, hnz, jsMathRound, round_eq]

/-- Witness for C5: star counts `[10, 30, 50]` give `avgStars = 30`. -/
theorem compare_avgStars_witness :
    avgEntries ≠ [] ∧ (comparisonOf avgEntries).avgStars = JsNum.val 30 := by
  have h := compare_avgStars_rounded_mean avgEntries [10, 30, 50]
    (by decide) (by decide)
  refine ⟨by decide, ?_⟩
  rw [h]
  norm_num

/-- C10 (confirmed): for every compare request, `count` equals the number
of requested names, the `repos` list has exactly one entry per requested
name, and `count` is the number of success entries plus the number of error
entries. -/
theorem compare_count_invariant (fetches : List RepoFetch) :
    (compareHandler fetches).count = fetches.length ∧
    (compareHandler fetches).repos.length = fetches.length ∧
    (compareHandler fetches).count =
      (compareHandler fetches).repos.countP isSuccessEntry +
        (compareHandler fetches).repos.countP (fun e => !isSuccessEntry e) := by
  refine ⟨by simp [compareHandler], by simp [compareHandler], ?_⟩
  have h := countP_success_add_error ((fetches.map compareEntry))
  simp only [compareHandler]
  omega

/-- C1 (confirmed): for a compare request of 2 to 5 names, the per-item
results appear in request order (the i-th output entry is the translation of
the i-th fetch), a failed required fetch becomes an
`{fullName, status: 'error', error}` entry instead of failing the whole
operation (the handler is total by construction), a successful fetch becomes
a success entry, and the derived metrics are unchanged when the failed
fetches are removed — i.e. they are computed only from success entries. -/
theorem compare_partial_failure_isolation (fetches : List RepoFetch)
    (h2 : 2 ≤ fetches.length) (h5 : fetches.length ≤ 5) :
    (compareHandler fetches).repos.length = fetches.length ∧
    (∀ i : ℕ, (compareHandler fetches).repos[i]? = (fetches[i]?).map compareEntry) ∧
    (∀ i : ℕ, ∀ f : RepoFetch, ∀ e : String, fetches[i]? = some f →
      f.data = .error e →
      (compareHandler fetches).repos[i]? = some (.error f.name e)) ∧
    (∀ i : ℕ, ∀ f : RepoFetch, ∀ d : RawRepo, fetches[i]? = some f →
      f.data = .ok d →
      (compareHandler fetches).repos[i]? =
        some (.success (formatRepo d) (f.languages.toOption.getD []))) ∧
    (compareHandler fetches).comparison =
      (compareHandler (fetches.filter (fun f => f.data.isOk))).comparison := by
  refine ⟨by simp [compareHandler], ?_, ?_, ?_, ?_⟩
  · intro i
    simp [compareHandler]
  · intro i f e hi hd
    simp [compareHandler, hi, compareEntry, hd]
  · intro i f d hi hd
    simp [compareHandler, hi, compareEntry, hd]
  · simp only [compareHandler]
    rw [successfulOf_map_filter]

/-- Witness for C1 at a 2-name request whose first fetch fails. -/
theorem compare_partial_failure_isolation_witness :
    (compareHandler mixFetches).repos.length = mixFetches.length ∧
    (compareHandler mixFetches).repos[0]? =
      some (.error "a/a" "GitHub API error: 404 - Not Found") ∧
    (compareHandler mixFetches).comparison =
      (compareHandler (mixFetches.filter (fun f => f.data.isOk))).comparison := by
  have h := compare_partial_failure_isolation mixFetches (by decide) (by decide)
  refine ⟨h.1, ?_, h.2.2.2.2⟩
  exact h.2.2.1 0 ⟨"a/a", .error "GitHub API error: 404 - Not Found", .ok []⟩
    "GitHub API error: 404 - Not Found" (by decide) (by decide)

/-- C3 counterexample: with zero successful repositories the serialized
`comparison` object has no `mostStars` key at all (it was `undefined`, which
`JSON.stringify` drops), while `avgStars` is `NaN` serialized as `null` —
so the four derived metrics are not all explicitly null-valued. -/
theorem compare_zero_success_not_all_null :
    (comparisonJson (compareHandler failFetches).comparison).lookup "mostStars" =
      none ∧
    (comparisonJson (compareHandler failFetches).comparison).lookup "avgStars" =
      some JsVal.null := by
  decide

/-- C3 (amended): when zero repositories succeed the three most-* metrics
are `undefined` — absent keys in the serialized JSON, not explicit nulls —
and `avgStars` is `NaN` (`0/0`), which serializes as `null`; the handler
returns normally rather than crashing. -/
theorem compare_zero_success_metrics (fetches : List RepoFetch)
    (h : ∀ f ∈ fetches, f.data.isOk = false) :
    (compareHandler fetches).comparison.mostStars = JsVal.undef ∧
    (compareHandler fetches).comparison.mostForks = JsVal.undef ∧
    (compareHandler fetches).comparison.mostRecent = JsVal.undef ∧
    (compareHandler fetches).comparison.avgStars = JsNum.nan ∧
    comparisonJson (compareHandler fetches).comparison =
      [("avgStars", JsVal.null)] := by
  have hnil := successfulOf_map_nil fetches h
  simp [compareHandler, comparisonOf, hnil, reduceMost, optFullName, starsSum,
    jsDiv, jsMathRound, comparisonJson, jsonObj, jsonOfJsNum]

/-- Witness for the amended C3 at the both-fail fixture. -/
theorem compare_zero_success_metrics_witness :
    (compareHandler failFetches).comparison.avgStars = JsNum.nan ∧
    comparisonJson (compareHandler failFetches).comparison =
      [("avgStars", JsVal.null)] := by
  have h := compare_zero_success_metrics failFetches (by decide)
  exact ⟨h.2.2.2.1, h.2.2.2.2⟩

/-- C6 (confirmed): the trending lookback is 1 day for `day`, 7 for `week`
(also the default when the timeframe is omitted) and 30 for `month`, and
the cutoff emitted in the upstream query is the UTC date component
(`YYYY-MM-DD`) of the current time minus that many days; concretely, from
2026-10-11T12:00:00Z (epoch ms 1791720000000) the day/week/month cutoffs
are 2026-10-10, 2026-10-04 and 2026-09-11. -/
theorem trending_lookback_window :
    timeframeDays .day = 1 ∧ timeframeDays .week = 7 ∧
    timeframeDays .month = 30 ∧ timeframeOrDefault none = .week ∧
    (∀ nowMs : ℤ, ∀ tf : Timeframe, trendingQuery nowMs tf none =
      "created:>" ++ isoDateOf (nowMs - (timeframeDays tf : ℤ) * 86400000) ++
        "+stars:>10") ∧
    trendingSince 1791720000000 .day = "2026-10-10" ∧
    trendingSince 1791720000000 .week = "2026-10-04" ∧
    trendingSince 1791720000000 .month = "2026-09-11" := by
  refine ⟨rfl, rfl, rfl, rfl, ?_, by decide, by decide, by decide⟩
  intro nowMs tf
  rfl

/-- C7 counterexample: for language `c++` the search handler's upstream
query is the double encoding `foo%2Blanguage%3Ac%252B%252B` (the language
token is percent-encoded when appended and then the whole composed string
is encoded again), not the percent-encoding of `foo+language:c++` that the
claim describes. -/
theorem search_double_encoding_cex :
    searchUpstreamQ "foo" (some "c++") none = "foo%2Blanguage%3Ac%252B%252B" ∧
    encodeURIComponent "foo+language:c++" = "foo%2Blanguage%3Ac%2B%2B" ∧
    searchUpstreamQ "foo" (some "c++") none ≠
      encodeURIComponent "foo+language:c++" := by
  decide

/-- C7 (amended): the search builder starts from the free-text query,
appends `+language:` followed by the percent-encoded language token when a
language is supplied, appends `+stars:>=<minStars>` when `minStars` is
supplied and nonzero (JavaScript truthiness skips a supplied `0`), and then
percent-encodes the entire composed string — so the language token is
double-encoded, whereas the trending builder encodes it exactly once and
never encodes its composed string.  The claim's concrete instance holds:
`foo`/`go`/`50` yields the percent-encoding of `foo+language:go+stars:>=50`,
because `go` is fixed by encoding. -/
theorem search_query_building (query : String) (l : String) (n : ℤ) :
    searchUpstreamQ query none none = encodeURIComponent query ∧
    searchUpstreamQ query (some l) none =
      encodeURIComponent (query ++ "+language:" ++ encodeURIComponent l) ∧
    (n ≠ 0 → searchUpstreamQ query (some l) (some n) =
      encodeURIComponent (query ++ "+language:" ++ encodeURIComponent l ++
        "+stars:>=" ++ toString n)) ∧
    searchUpstreamQ query (some l) (some 0) = searchUpstreamQ query (some l) none ∧
    (∀ nowMs : ℤ, ∀ tf : Timeframe, trendingQuery nowMs tf (some l) =
      "created:>" ++ trendingSince nowMs tf ++ "+stars:>10" ++ "+language:" ++
        encodeURIComponent l) ∧
    searchUpstreamQ "foo" (some "go") (some 50) =
      encodeURIComponent "foo+language:go+stars:>=50" := by
  refine ⟨rfl, rfl, ?_, ?_, ?_, by decide⟩
  · intro hn
    simp [searchUpstreamQ, searchComposedQ, hn]
  · simp [searchUpstreamQ, searchComposedQ]
  · intro nowMs tf
    rfl

/-- Witness for the amended C7 with a nonzero minimum-star filter. -/
theorem search_query_building_witness :
    (50 : ℤ) ≠ 0 ∧
    searchUpstreamQ "foo" (some "go") (some 50) =
      encodeURIComponent ("foo" ++ "+language:" ++ encodeURIComponent "go" ++
        "+stars:>=" ++ toString (50 : ℤ)) :=
  ⟨by decide, (search_query_building "foo" "go" 50).2.2.1 (by decide)⟩

/-- C8 (confirmed): in repo-stats a failure of the required repository
fetch propagates as the operation's failure; a failure of the contributors
fetch is caught and replaced by an empty list; a failure of the languages
fetch is caught and replaced by an empty mapping — in both optional cases
the operation still succeeds. -/
theorem repo_stats_failure_policy (rRes : Except String RawRepo)
    (cRes : Except String (List ContribRaw)) (lRes : Except String LangMap) :
    (∀ e, rRes = .error e → repoStatsHandler rRes cRes lRes = .error e) ∧
    (∀ rd ce, rRes = .ok rd → cRes = .error ce →
      (repoStatsHandler rRes cRes lRes).toOption.map
        (fun o => o.topContributors) = some []) ∧
    (∀ rd le, rRes = .ok rd → lRes = .error le →
      (repoStatsHandler rRes cRes lRes).toOption.map
        (fun o => o.languages) = some []) := by
  refine ⟨?_, ?_, ?_⟩
  · intro e he
    simp [repoStatsHandler, he]
  · intro rd ce hr hc
    simp [repoStatsHandler, hr, hc, Except.toOption]
  · intro rd le hr hl
    simp [repoStatsHandler, hr, hl, Except.toOption]

/-- Witness for C8: a failed required fetch propagates its message; failed
optional fetches yield an empty contributor list and language map. -/
theorem repo_stats_failure_policy_witness :
    repoStatsHandler (.error "GitHub API error: 404 - Not Found")
        (.ok []) (.ok []) = .error "GitHub API error: 404 - Not Found" ∧
    (repoStatsHandler (.ok {}) (.error "x") (.error "y")).toOption.map
        (fun o => o.topContributors) = some [] ∧
    (repoStatsHandler (.ok {}) (.error "x") (.error "y")).toOption.map
        (fun o => o.languages) = some [] :=
  ⟨(repo_stats_failure_policy (.error "GitHub API error: 404 - Not Found")
      (.ok []) (.ok [])).1 "GitHub API error: 404 - Not Found" rfl,
   (repo_stats_failure_policy (.ok {}) (.error "x") (.error "y")).2.1 {} "x" rfl rfl,
   (repo_stats_failure_policy (.ok {}) (.error "x") (.error "y")).2.2 {} "y" rfl rfl⟩

/-- C9 (confirmed): the overview entrypoint is registered with price 0,
and `sampleTrending` has exactly 3 entries when the upstream search
returned at least 3 items, and exactly as many as returned otherwise. -/
theorem overview_price_and_sample (items : List RawRepo) :
    priceOf "overview" = some 0 ∧
    (3 ≤ items.length → (overviewSample items).length = 3) ∧
    (items.length < 3 → (overviewSample items).length = items.length) := by
  refine ⟨rfl, ?_, ?_⟩ <;> intro h <;>
    simp [overviewSample, List.length_take] <;> omega

/-- Witness for C9 at a 4-item upstream result. -/
theorem overview_price_and_sample_witness :
    priceOf "overview" = some 0 ∧ 3 ≤ sampleItems.length ∧
      (overviewSample sampleItems).length = 3 :=
  ⟨(overview_price_and_sample sampleItems).1, by decide,
   (overview_price_and_sample sampleItems).2.1 (by decide)⟩
